import Mathlib

set_option maxRecDepth 8192

/-!
Verification of the ObsAct compiler front end
(repository marcela-05/analisadores_lexicos_sintaticos).

The lexer and the recursive-descent parser are embedded from
`src/main.py` (class `DeviceLexer`, lines 5-95, and class `DeviceParser`,
lines 364-698).  `src/lexer.py` contains the same `DeviceLexer` except
that its `ignore` set also holds `'\r'`; none of the claims involves a
carriage return, so the embedding follows `src/main.py`, whose lexer is
the one the parser under scrutiny uses.

The SLY lexer tries its token patterns in class-definition order and, at
every position, first checks the `ignore` characters, then the master
regular expression (first alternative that matches at the position wins),
and on failure calls `error`, which reports an illegal character and
advances exactly one character.  The embedding reproduces that order.
-/

namespace ObsAct

/-- A SLY token value: Python stores an `int` for NUM, a `bool` for BOOL
and the raw (or quote-stripped) text for every other kind. -/
inductive TokenVal where
  | num (n : Nat)
  | bool (b : Bool)
  | str (s : String)
deriving DecidableEq, Repr

/-- Python's `str()` of a token value, as used in error messages
(`True`/`False` for booleans). -/
def TokenVal.pyStr : TokenVal → String
  | .num n => toString n
  | .bool b => if b then "True" else "False"
  | .str s => s

/-- One lexical unit: kind (SLY token types are strings), value, line. -/
structure Token where
  ty : String
  val : TokenVal
  lineno : Nat
deriving DecidableEq, Repr

/-- The report produced by `DeviceLexer.error`: the illegal character and
the current line number (kind `IllegalCharacter` in the spec). -/
structure LexError where
  ch : Char
  lineno : Nat
deriving DecidableEq, Repr

/-- The eleven keywords with their token types, in the class-definition
order of `DeviceLexer` (`DISPOSITIVO` ... `DESLIGAR`). -/
def keywordList : List (String × String) :=
  [("dispositivo", "DISPOSITIVO"), ("set", "SET"), ("se", "SE"),
   ("entao", "ENTAO"), ("senao", "SENAO"), ("enviar", "ENVIAR"),
   ("alerta", "ALERTA"), ("para", "PARA"), ("todos", "TODOS"),
   ("ligar", "LIGAR"), ("desligar", "DESLIGAR")]

/-- The reserved-word set re-checked by the `OBSERVATION` and
`NAMEDEVICE` token functions (keywords plus `true`/`false`). -/
def reservedWords : List String :=
  (keywordList.map (fun p => p.1)) ++ ["true", "false"]

/-- Python's `str.upper()` on the ASCII identifiers at hand. -/
def pyUpper (s : String) : String :=
  String.mk (s.data.map Char.toUpper)

/-- Python's `\w`: a word character `[a-zA-Z0-9_]`. -/
def isWordChar (c : Char) : Bool :=
  c.isAlpha || c.isDigit || c = '_'

/-- `pat` is a leading run of `cs` (a regex literal matching at the
position). -/
def charsBeginWith : List Char → List Char → Bool
  | [], _ => true
  | p :: ps, cs =>
    match cs with
    | [] => false
    | c :: rest => p = c && charsBeginWith ps rest

/-- A keyword pattern `kw\b` matches at the head of `cs`: the keyword's
characters are a leading run of `cs` and the next character, if any, is
not a word character. -/
def kwMatches (cs : List Char) (kw : List Char) : Bool :=
  charsBeginWith kw cs &&
    (match cs.drop kw.length with
     | [] => true
     | c :: _ => !(isWordChar c))

/-- Try the eleven keyword patterns, in order.  Returns kind, value and
number of characters consumed. -/
def matchKeyword (cs : List Char) : Option (String × TokenVal × Nat) :=
  (keywordList.find? (fun p => kwMatches cs p.1.data)).map
    (fun p => (p.2, TokenVal.str p.1, p.1.data.length))

/-- The `AND` pattern `&&`. -/
def matchAND (cs : List Char) : Option (String × TokenVal × Nat) :=
  if charsBeginWith ['&', '&'] cs then some ("AND", .str "&&", 2) else none

/-- The `OPLOGIC` pattern `(==|!=|<=|>=|<|>)`: alternatives tried left
to right, as Python's `re` does. -/
def oplogicOps : List String := ["==", "!=", "<=", ">=", "<", ">"]

def matchOPLOGIC (cs : List Char) : Option (String × TokenVal × Nat) :=
  (oplogicOps.find? (fun op => charsBeginWith op.data cs)).map
    (fun op => ("OPLOGIC", TokenVal.str op, op.data.length))

/-- The single-character symbol patterns, in class-definition order
(`DOIS_PONTOS` ... `FECHA_PAREN`); note `IGUAL` is only reached after
`OPLOGIC` failed, so `==` never lexes as two `IGUAL`. -/
def symbolList : List (Char × String) :=
  [(':', "DOIS_PONTOS"), ('.', "PONTO"), (',', "VIRGULA"), ('=', "IGUAL"),
   ('{', "ABRE_CHAVE"), ('}', "FECHA_CHAVE"),
   ('(', "ABRE_PAREN"), (')', "FECHA_PAREN")]

def matchSymbol (cs : List Char) : Option (String × TokenVal × Nat) :=
  match cs with
  | [] => none
  | c :: _ =>
    (symbolList.find? (fun p => p.1 = c)).map
      (fun p => (p.2, TokenVal.str (String.mk [c]), 1))

/-- Digit run to its numeric value (`int(t.value)` in the NUM action). -/
def digitsVal (ds : List Char) : Nat :=
  List.foldl (fun a c => a * 10 + (c.toNat - '0'.toNat)) 0 ds

/-- The `NUM` pattern `\d+` (greedy maximal run). -/
def matchNUM (cs : List Char) : Option (String × TokenVal × Nat) :=
  let ds := cs.takeWhile (fun c => c.isDigit)
  if ds.isEmpty then none else some ("NUM", .num (digitsVal ds), ds.length)

/-- The `BOOL` pattern `(true|false)` — written without a trailing word
boundary, so it also fires on a longer identifier's head. -/
def matchBOOL (cs : List Char) : Option (String × TokenVal × Nat) :=
  if charsBeginWith "true".data cs then some ("BOOL", .bool true, 4)
  else if charsBeginWith "false".data cs then some ("BOOL", .bool false, 5)
  else none

/-- The `MSG` pattern `"[^"]*"`; the action strips the quotes.  Without a
closing quote the pattern fails and the opening quote is illegal. -/
def matchMSG (cs : List Char) : Option (String × TokenVal × Nat) :=
  match cs with
  | '\"' :: rest =>
    let inner := rest.takeWhile (fun c => c ≠ '\"')
    match rest.drop inner.length with
    | '\"' :: _ => some ("MSG", .str (String.mk inner), inner.length + 2)
    | _ => none
  | _ => none

/-- The `OBSERVATION` pattern `[a-zA-Z][a-zA-Z0-9_]*` with the
reserved-word recheck of its token function (`t.type = t.value.upper()`
when the text is reserved — unreachable in practice, since the keyword
patterns are tried first, but reproduced faithfully). -/
def matchOBSERVATION (cs : List Char) : Option (String × TokenVal × Nat) :=
  match cs with
  | [] => none
  | c :: _ =>
    if c.isAlpha then
      let w := cs.takeWhile isWordChar
      let s := String.mk w
      let ty := if reservedWords.contains s then pyUpper s else "OBSERVATION"
      some (ty, .str s, w.length)
    else none

/-- The `NAMEDEVICE` pattern `[a-zA-Z]+` with the same recheck.  Listed
after `OBSERVATION`, whose language is a superset, so it never wins. -/
def matchNAMEDEVICE (cs : List Char) : Option (String × TokenVal × Nat) :=
  match cs with
  | [] => none
  | c :: _ =>
    if c.isAlpha then
      let w := cs.takeWhile (fun d => d.isAlpha)
      let s := String.mk w
      let ty := if reservedWords.contains s then pyUpper s else "NAMEDEVICE"
      some (ty, .str s, w.length)
    else none

/-- The master pattern: alternatives in class-definition order, first
match at the position wins. -/
def matchToken (cs : List Char) : Option (String × TokenVal × Nat) :=
  match matchKeyword cs with
  | some r => some r
  | none =>
  match matchAND cs with
  | some r => some r
  | none =>
  match matchOPLOGIC cs with
  | some r => some r
  | none =>
  match matchSymbol cs with
  | some r => some r
  | none =>
  match matchNUM cs with
  | some r => some r
  | none =>
  match matchBOOL cs with
  | some r => some r
  | none =>
  match matchMSG cs with
  | some r => some r
  | none =>
  match matchOBSERVATION cs with
  | some r => some r
  | none => matchNAMEDEVICE cs

/-- The SLY scanning loop: skip `ignore` characters (space, tab), let
`\n+` advance the line counter, otherwise match a token; on failure
record an illegal character and advance exactly one character.  `fuel`
is a structural-recursion budget; `tokenize` supplies one unit per input
character plus one, which is always enough since every step consumes at
least one character. -/
def scan : Nat → List Char → Nat → List Token × List LexError
  | 0, _, _ => ([], [])
  | _ + 1, [], _ => ([], [])
  | fuel + 1, c :: cs, line =>
    if c = ' ' || c = '\t' then scan fuel cs line
    else if c = '\n' then scan fuel cs (line + 1)
    else
      match matchToken (c :: cs) with
      | some (ty, v, n) =>
        let r := scan fuel ((c :: cs).drop n) line
        (⟨ty, v, line⟩ :: r.1, r.2)
      | none =>
        let r := scan fuel cs line
        (r.1, ⟨c, line⟩ :: r.2)

/-- `DeviceLexer.tokenize`: token stream and the illegal-character
reports, line numbers starting at 1. -/
def tokenize (s : String) : List Token × List LexError :=
  scan (s.data.length + 1) s.data 1

/-!
AST of `src/main.py` (classes `Program` ... `DeviceNameList`, lines
117-342).  The `DeviceList`, `CommandList` and `DeviceNameList` wrappers
only hold a Python list; they are embedded as the lists themselves.
`Command` and `Action` are Python class hierarchies used as tagged
variants; an `Action` returned by `parse_command` is itself a command.
Note this `Observation` (main.py line 232) has no combinator field: a
link is joined to `next_obs` implicitly by `&&`.
-/

/-- `Variable` node: a literal value (int or bool) with its line. -/
structure Variable where
  value : TokenVal
  line : Nat
deriving Repr

/-- `Device` node: declaration name, optional observation, line. -/
structure Device where
  name : String
  observation : Option String
  line : Nat
deriving Repr

/-- `Observation` node of main.py: one link of a condition chain.
`next_obs` is the optional rest of the chain (joined by `&&`). -/
inductive Observation where
  | mk (observation : String) (operator : String) (value : Variable)
       (next_obs : Option Observation) (line : Nat)
deriving Repr

/-- `Action` variants: `SimpleAction`, `AlertAction`,
`BroadcastAlertAction`. -/
inductive Action where
  | simple (action_type : String) (device : String) (line : Nat)
  | alert (message : String) (device : String) (observation : Option String)
      (line : Nat)
  | broadcast (message : String) (devices : List String) (line : Nat)
deriving Repr

/-- `Command` variants: `Attribution`, `ObservationAction`, or an
`Action` used directly as a command. -/
inductive Command where
  | attribution (observation : String) (value : Variable) (line : Nat)
  | obsAct (condition : Observation) (thenAction : Action)
      (elseAction : Option Action) (line : Nat)
  | act (a : Action)
deriving Repr

/-- `Program` node: device declarations and commands. -/
structure Program where
  devices : List Device
  commands : List Command
deriving Repr

/-!
Parser embedding (`DeviceParser`, main.py lines 364-698).  The mutable
token cursor becomes an explicit index `i` into the fixed token list;
every parsing function returns the new index on success.  A raised
`ParseError` carries the message, line and offending-token text; the
index at raise time is carried alongside, because the Python object's
cursor keeps its advanced value when an exception propagates (the
recovery code reads it).  Where the Python code would evaluate
`self.current_token.value` with `current_token = None` (an
`AttributeError`, uncaught by the `except ParseError` handlers), the
embedding returns the distinct `attrErr` outcome.  `fuelOut` marks
exhaustion of a structural-recursion budget; every entry point supplies
`ts.length + 1` units, more than the possible recursion depth, so it
never fires on an actual run.  The `panic_mode` flag of the Python class
is written but never read, and is omitted.
-/

/-- `ParseError(message, line_number, token)`. -/
structure ParseError where
  message : String
  line : Nat
  tok : String
deriving DecidableEq, Repr

/-- Python's `str()` of a `ParseError` (main.py lines 358-361). -/
def ParseError.pyStr (e : ParseError) : String :=
  if e.line > 0 then
    "Erro sintático na linha " ++ toString e.line ++ ": " ++ e.message
  else
    "Erro sintático: " ++ e.message

/-- What escapes a parsing function: a `ParseError`, an uncaught
`AttributeError` from dereferencing a `None` current token, or fuel
exhaustion (never reached at the supplied budgets). -/
inductive PyExc where
  | parseErr (e : ParseError)
  | attrErr
  | fuelOut
deriving Repr

/-- `self.current_token` when the cursor is at `i`. -/
def curTok (ts : List Token) (i : Nat) : Option Token :=
  ts.get? i

/-- `match_token`: the current token exists and has the given type. -/
def matchTok (ts : List Token) (i : Nat) (ty : String) : Bool :=
  match curTok ts i with
  | some t => t.ty = ty
  | none => false

/-- `self.current_token.lineno if self.current_token else 0`. -/
def curLine (ts : List Token) (i : Nat) : Nat :=
  match curTok ts i with
  | some t => t.lineno
  | none => 0

/-- The context hints `consume_token` appends for common omissions. -/
def consumeHint (expected : String) : String :=
  if expected = "PONTO" then ". Commands must end with a period (.)"
  else if expected = "DOIS_PONTOS" then
    ". Device declarations require a colon (:)"
  else if expected = "IGUAL" then ". Assignments require an equals sign (=)"
  else ""

/-- `consume_token(expected)`: checks the current token's type; on
success the cursor moves to `i + 1` (callers use that offset). -/
def consumeExp (ts : List Token) (i : Nat) (expected : String) :
    Except (PyExc × Nat) Token :=
  match curTok ts i with
  | none =>
    .error (.parseErr ⟨"Expected '" ++ expected ++
      "' but reached end of input", 0, ""⟩, i)
  | some t =>
    if t.ty = expected then .ok t
    else
      .error (.parseErr ⟨"Expected '" ++ expected ++ "' but found '" ++
        t.ty ++ "' ('" ++ t.val.pyStr ++ "')" ++ consumeHint expected,
        t.lineno, t.val.pyStr⟩, i)

/-- `consume_token()` with no expected type. -/
def consumeAny (ts : List Token) (i : Nat) : Except (PyExc × Nat) Token :=
  match curTok ts i with
  | none => .error (.parseErr ⟨"Unexpected end of input", 0, ""⟩, i)
  | some t => .ok t

/-- `parse_variable`: VAR → num | bool.  At end of input the else
branch formats `self.current_token.value` and crashes. -/
def parseVariable (ts : List Token) (i : Nat) :
    Except (PyExc × Nat) (Variable × Nat) :=
  let line := curLine ts i
  if matchTok ts i "NUM" then
    match consumeExp ts i "NUM" with
    | .error e => .error e
    | .ok t => .ok (⟨t.val, line⟩, i + 1)
  else if matchTok ts i "BOOL" then
    match consumeExp ts i "BOOL" with
    | .error e => .error e
    | .ok t => .ok (⟨t.val, line⟩, i + 1)
  else
    match curTok ts i with
    | none => .error (.attrErr, i)
    | some t =>
      .error (.parseErr ⟨"Expected number or boolean, found '" ++
        t.val.pyStr ++ "'", t.lineno, t.val.pyStr⟩, i)

/-- The device-name acceptance pattern repeated inline in
`parse_device`, `parse_action` and `parse_device_list`: accept either
`NAMEDEVICE` or `OBSERVATION`; at end of input the else branch formats
`self.current_token.value` and crashes. -/
def deviceNameTok (ts : List Token) (i : Nat) : Except (PyExc × Nat) Token :=
  if matchTok ts i "NAMEDEVICE" then consumeExp ts i "NAMEDEVICE"
  else if matchTok ts i "OBSERVATION" then consumeExp ts i "OBSERVATION"
  else
    match curTok ts i with
    | none => .error (.attrErr, i)
    | some t =>
      .error (.parseErr ⟨"Expected device name but found '" ++
        t.val.pyStr ++ "'", t.lineno, t.val.pyStr⟩, i)

/-- `parse_observation`: OBS → observation oplogic VAR
| observation oplogic VAR && OBS.  The chain grows to the right through
`next_obs`. -/
def parseObservation : Nat → List Token → Nat →
    Except (PyExc × Nat) (Observation × Nat)
  | 0, _, i => .error (.fuelOut, i)
  | fuel + 1, ts, i =>
    let line := curLine ts i
    match consumeExp ts i "OBSERVATION" with
    | .error e => .error e
    | .ok obsT =>
    match consumeExp ts (i + 1) "OPLOGIC" with
    | .error e => .error e
    | .ok opT =>
    match parseVariable ts (i + 2) with
    | .error e => .error e
    | .ok (v, _) =>
      if matchTok ts (i + 3) "AND" then
        match consumeExp ts (i + 3) "AND" with
        | .error e => .error e
        | .ok _ =>
        match parseObservation fuel ts (i + 4) with
        | .error e => .error e
        | .ok (next, j) =>
          .ok (.mk obsT.val.pyStr opT.val.pyStr v (some next) line, j)
      else
        .ok (.mk obsT.val.pyStr opT.val.pyStr v none line, i + 3)

/-- `parse_device`: DEVICE → dispositivo : name (, observation)?. -/
def parseDevice (ts : List Token) (i : Nat) :
    Except (PyExc × Nat) (Device × Nat) :=
  let line := curLine ts i
  match consumeExp ts i "DISPOSITIVO" with
  | .error e => .error e
  | .ok _ =>
  match consumeExp ts (i + 1) "DOIS_PONTOS" with
  | .error e => .error e
  | .ok _ =>
  match deviceNameTok ts (i + 2) with
  | .error e => .error e
  | .ok nameT =>
    if matchTok ts (i + 3) "VIRGULA" then
      match consumeExp ts (i + 3) "VIRGULA" with
      | .error e => .error e
      | .ok _ =>
      match consumeExp ts (i + 4) "OBSERVATION" with
      | .error e => .error e
      | .ok obsT =>
        .ok (⟨nameT.val.pyStr, some obsT.val.pyStr, line⟩, i + 5)
    else
      .ok (⟨nameT.val.pyStr, none, line⟩, i + 3)

/-- The `while self.match_token('DISPOSITIVO')` loop of
`parse_devices`. -/
def parseDevicesLoop : Nat → List Token → Nat → List Device →
    Except (PyExc × Nat) (List Device × Nat)
  | 0, _, i, _ => .error (.fuelOut, i)
  | fuel + 1, ts, i, acc =>
    if matchTok ts i "DISPOSITIVO" then
      match parseDevice ts i with
      | .error e => .error e
      | .ok (d, j) => parseDevicesLoop fuel ts j (acc ++ [d])
    else .ok (acc, i)

/-- `parse_devices`: DEVICES → DEVICE DEVICES | DEVICE; raises when the
first token is not `dispositivo`. -/
def parseDevices (ts : List Token) (i : Nat) :
    Except (PyExc × Nat) (List Device × Nat) :=
  if matchTok ts i "DISPOSITIVO" then
    match parseDevice ts i with
    | .error e => .error e
    | .ok (d, j) => parseDevicesLoop (ts.length + 1) ts j [d]
  else
    .error (.parseErr ⟨"Expected 'dispositivo' at start of program",
      curLine ts i, ""⟩, i)

/-- `parse_attribution`: ATTRIB → set observation = VAR. -/
def parseAttribution (ts : List Token) (i : Nat) :
    Except (PyExc × Nat) (Command × Nat) :=
  let line := curLine ts i
  match consumeExp ts i "SET" with
  | .error e => .error e
  | .ok _ =>
  match consumeExp ts (i + 1) "OBSERVATION" with
  | .error e => .error e
  | .ok obsT =>
  match consumeExp ts (i + 2) "IGUAL" with
  | .error e => .error e
  | .ok _ =>
  match parseVariable ts (i + 3) with
  | .error e => .error e
  | .ok (v, j) => .ok (.attribution obsT.val.pyStr v line, j)

/-- The `while self.match_token('VIRGULA')` loop of
`parse_device_list`. -/
def parseDeviceListLoop : Nat → List Token → Nat → List String →
    Except (PyExc × Nat) (List String × Nat)
  | 0, _, i, _ => .error (.fuelOut, i)
  | fuel + 1, ts, i, acc =>
    if matchTok ts i "VIRGULA" then
      match consumeExp ts i "VIRGULA" with
      | .error e => .error e
      | .ok _ =>
      match deviceNameTok ts (i + 1) with
      | .error e => .error e
      | .ok t => parseDeviceListLoop fuel ts (i + 2) (acc ++ [t.val.pyStr])
    else .ok (acc, i)

/-- `parse_device_list`: DEVICE_LIST → name (, name)*. -/
def parseDeviceList (ts : List Token) (i : Nat) :
    Except (PyExc × Nat) (List String × Nat) :=
  match deviceNameTok ts i with
  | .error e => .error e
  | .ok t => parseDeviceListLoop (ts.length + 1) ts (i + 1) [t.val.pyStr]

/-- `parse_action`: power toggles, single alerts and broadcast
alerts.  A broadcast discards a parsed `(msg, observation)`
observation, as the Python code does. -/
def parseAction (ts : List Token) (i : Nat) :
    Except (PyExc × Nat) (Action × Nat) :=
  let line := curLine ts i
  if matchTok ts i "LIGAR" || matchTok ts i "DESLIGAR" then
    match consumeAny ts i with
    | .error e => .error e
    | .ok actT =>
    match deviceNameTok ts (i + 1) with
    | .error e => .error e
    | .ok devT => .ok (.simple actT.val.pyStr devT.val.pyStr line, i + 2)
  else if matchTok ts i "ENVIAR" then
    match consumeExp ts i "ENVIAR" with
    | .error e => .error e
    | .ok _ =>
    match consumeExp ts (i + 1) "ALERTA" with
    | .error e => .error e
    | .ok _ =>
    match consumeExp ts (i + 2) "ABRE_PAREN" with
    | .error e => .error e
    | .ok _ =>
    match consumeExp ts (i + 3) "MSG" with
    | .error e => .error e
    | .ok msgT =>
    match
      (if matchTok ts (i + 4) "VIRGULA" then
        match consumeExp ts (i + 4) "VIRGULA" with
        | .error e => .error e
        | .ok _ =>
        match consumeExp ts (i + 5) "OBSERVATION" with
        | .error e => .error e
        | .ok obsT => .ok (some obsT.val.pyStr, i + 6)
      else
        (.ok (none, i + 4) :
          Except (PyExc × Nat) (Option String × Nat))) with
    | .error e => .error e
    | .ok (observation, k) =>
    match consumeExp ts k "FECHA_PAREN" with
    | .error e => .error e
    | .ok _ =>
      if matchTok ts (k + 1) "PARA" then
        match consumeExp ts (k + 1) "PARA" with
        | .error e => .error e
        | .ok _ =>
        match consumeExp ts (k + 2) "TODOS" with
        | .error e => .error e
        | .ok _ =>
        match consumeExp ts (k + 3) "DOIS_PONTOS" with
        | .error e => .error e
        | .ok _ =>
        match parseDeviceList ts (k + 4) with
        | .error e => .error e
        | .ok (devs, m) => .ok (.broadcast msgT.val.pyStr devs line, m)
      else
        match deviceNameTok ts (k + 1) with
        | .error e => .error e
        | .ok devT =>
          .ok (.alert msgT.val.pyStr devT.val.pyStr observation line, k + 2)
  else
    match curTok ts i with
    | none => .error (.attrErr, i)
    | some t =>
      .error (.parseErr ⟨"Expected action, found '" ++ t.val.pyStr ++ "'",
        t.lineno, t.val.pyStr⟩, i)

/-- `parse_observation_action`: OBSACT → se OBS entao ACT (senao ACT)?. -/
def parseObsAct (ts : List Token) (i : Nat) :
    Except (PyExc × Nat) (Command × Nat) :=
  let line := curLine ts i
  match consumeExp ts i "SE" with
  | .error e => .error e
  | .ok _ =>
  match parseObservation (ts.length + 1) ts (i + 1) with
  | .error e => .error e
  | .ok (cond, j) =>
  match consumeExp ts j "ENTAO" with
  | .error e => .error e
  | .ok _ =>
  match parseAction ts (j + 1) with
  | .error e => .error e
  | .ok (thenA, k) =>
    if matchTok ts k "SENAO" then
      match consumeExp ts k "SENAO" with
      | .error e => .error e
      | .ok _ =>
      match parseAction ts (k + 1) with
      | .error e => .error e
      | .ok (elseA, m) => .ok (.obsAct cond thenA (some elseA) line, m)
    else
      .ok (.obsAct cond thenA none line, k)

/-- `match_token_for_command`: can the current token start a command? -/
def matchTokenForCommand (ts : List Token) (i : Nat) : Bool :=
  matchTok ts i "SET" || matchTok ts i "SE" || matchTok ts i "LIGAR" ||
    matchTok ts i "DESLIGAR" || matchTok ts i "ENVIAR"

/-- `parse_command`: CMD → ATTRIB | OBSACT | ACT. -/
def parseCommand (ts : List Token) (i : Nat) :
    Except (PyExc × Nat) (Command × Nat) :=
  if matchTok ts i "SET" then parseAttribution ts i
  else if matchTok ts i "SE" then parseObsAct ts i
  else if matchTok ts i "LIGAR" || matchTok ts i "DESLIGAR" ||
      matchTok ts i "ENVIAR" then
    match parseAction ts i with
    | .error e => .error e
    | .ok (a, j) => .ok (.act a, j)
  else
    match curTok ts i with
    | none => .error (.attrErr, i)
    | some t =>
      .error (.parseErr ⟨"Unexpected token '" ++ t.val.pyStr ++
        "' in command", t.lineno, t.val.pyStr⟩, i)

/-- The body of one `parse_commands` loop iteration: a command followed
by its terminating period. -/
def parseCommandPonto (ts : List Token) (i : Nat) :
    Except (PyExc × Nat) (Command × Nat) :=
  match parseCommand ts i with
  | .error e => .error e
  | .ok (c, j) =>
    match consumeExp ts j "PONTO" with
    | .error e => .error e
    | .ok _ => .ok (c, j + 1)

/-- The synchronization set of `DeviceParser.synchronize`. -/
def syncKinds : List String :=
  ["DISPOSITIVO", "SET", "SE", "LIGAR", "DESLIGAR", "ENVIAR"]

/-- Number of leading tokens whose kind is outside the synchronization
set (the whole list if none belongs to it). -/
def syncSkip : List Token → Nat
  | [] => 0
  | t :: rest => if syncKinds.contains t.ty then 0 else syncSkip rest + 1

/-- `synchronize`: discard tokens from position `i` until one of the
synchronization kinds (or the end of the stream) is reached. -/
def syncIdx (ts : List Token) (i : Nat) : Nat :=
  i + syncSkip (ts.drop i)

/-- `add_error`: prefix the message with the current token's line (when
there is a current token) and append it unless already recorded. -/
def addError (ts : List Token) (i : Nat) (errs : List String)
    (msg : String) : List String :=
  let m := match curTok ts i with
    | some t => "Linha " ++ toString t.lineno ++ ": " ++ msg
    | none => msg
  if errs.contains m then errs else errs ++ [m]

/-- The `parse_commands` loop: parse commands while one can start; on a
`ParseError` record it, synchronize and continue; an `AttributeError`
escapes.  After the loop, raise when no command was parsed.  Returns
the error list accumulated so far in every case. -/
def parseCommandsLoop : Nat → List Token → Nat → List String →
    List Command → List String × Except (PyExc × Nat) (List Command × Nat)
  | 0, _, i, errs, _ => (errs, .error (.fuelOut, i))
  | fuel + 1, ts, i, errs, acc =>
    if matchTokenForCommand ts i then
      match parseCommandPonto ts i with
      | .ok (c, j) => parseCommandsLoop fuel ts j errs (acc ++ [c])
      | .error (.parseErr e, j) =>
        parseCommandsLoop fuel ts (syncIdx ts j)
          (addError ts j errs e.pyStr) acc
      | .error (.attrErr, j) => (errs, .error (.attrErr, j))
      | .error (.fuelOut, j) => (errs, .error (.fuelOut, j))
    else
      if acc.isEmpty then
        (errs, .error (.parseErr ⟨"Expected at least one command", 0, ""⟩, i))
      else (errs, .ok (acc, i))

/-- `parse_program`: PROGRAM → DEVICES CMDS. -/
def parseProgram (ts : List Token) :
    List String × Except (PyExc × Nat) (Program × Nat) :=
  match parseDevices ts 0 with
  | .error e => ([], .error e)
  | .ok (devs, j) =>
    match parseCommandsLoop (ts.length + 1) ts j [] [] with
    | (errs, .error e) => (errs, .error e)
    | (errs, .ok (cmds, k)) => (errs, .ok (⟨devs, cmds⟩, k))

/-- What a call of `DeviceParser.parse` does: return a `Program`, raise
a `ParseError` (with the error list collected at that point), or let an
`AttributeError` escape. -/
inductive ParseOutcome where
  | ok (p : Program)
  | raised (e : ParseError) (collected : List String)
  | crash
  | fuelOut
deriving Repr

/-- `"\n".join`. -/
def joinNL : List String → String
  | [] => ""
  | [s] => s
  | s :: rest => s ++ "\n" ++ joinNL rest

/-- `DeviceParser.parse` (main.py lines 375-408): empty token stream
raises directly; otherwise parse the program, flag a trailing token,
and, when errors were collected, raise "Parsing completed with errors"
— which the function's own `except ParseError` catches, appends, and
re-raises as "Parsing failed".  The second component is the final
`self.errors` list. -/
def parseFull (ts : List Token) : ParseOutcome × List String :=
  if ts.isEmpty then
    (.raised ⟨"Empty input - no tokens found", 0, ""⟩ [], [])
  else
    match parseProgram ts with
    | (errs, .error (.attrErr, _)) => (.crash, errs)
    | (errs, .error (.fuelOut, _)) => (.fuelOut, errs)
    | (errs, .error (.parseErr e, _)) =>
      let errs1 := if errs.contains e.pyStr then errs else errs ++ [e.pyStr]
      (.raised ⟨"Parsing failed:\n" ++ joinNL errs1, 0, ""⟩ errs1, errs1)
    | (errs, .ok (p, k)) =>
      let errs1 := match curTok ts k with
        | some t =>
          addError ts k errs ("Unexpected token '" ++ t.val.pyStr ++
            "' after end of program")
        | none => errs
      if errs1.isEmpty then (.ok p, errs1)
      else
        let completed : ParseError :=
          ⟨"Parsing completed with errors:\n" ++ joinNL errs1, 0, ""⟩
        let errs2 := if errs1.contains completed.pyStr then errs1
          else errs1 ++ [completed.pyStr]
        (.raised ⟨"Parsing failed:\n" ++ joinNL errs2, 0, ""⟩ errs2, errs2)

/-- The outcome of `DeviceParser.parse` on a token list. -/
def parse (ts : List Token) : ParseOutcome :=
  (parseFull ts).1

/-- The final collected `self.errors` list of a parse call. -/
def parseCollected (ts : List Token) : List String :=
  (parseFull ts).2

/-- Tokenize then parse, as `DeviceParser.parse(input_text)` does. -/
def parseSource (src : String) : ParseOutcome :=
  parse (tokenize src).1

/-- The error list `DeviceLanguageProcessor.analyze` reports for a
source: empty on success, the raised `ParseError`'s text on failure,
and the `AttributeError` text behind `"Unexpected error: "` when the
parser crashed. -/
def analyzeErrors (src : String) : List String :=
  match parseSource src with
  | .ok _ => []
  | .raised e _ => [e.pyStr]
  | .crash => ["Unexpected error: 'NoneType' object has no attribute 'value'"]
  | .fuelOut => []

/-!
Code generator model.  The generator class (`ObsActCompiler`) is imported
from module `main` by `src/test_code_generator.py`, `src/debug_codegen.py`
and `src/demo_final_codegen.py`, but the `src/main.py` present in the
repository stops at the parser: the generator's code itself is not under
`src/`.  The broadcast lowering is therefore modelled from the spec
(§4.4: "`BroadcastAlertAction` → one plain-alert call per device in the
list, in list order, each using the same message — never a single batched
call"), anchored by the generated artifact `src/tests/programa2.py`
(lines 16-20: a comment line followed by `alerta("monitor", ...)` and
`alerta("celular", ...)`) and by the expectations of
`TestCodeGenerator.test_broadcast_alert_generation`.
-/

/-- Modelled from the spec: the plain-alert runtime call emitted by the
missing code generator, `alerta("<device>", "<message>")`, exactly as the
generated artifact `src/tests/programa2.py` and the assertions of
`test_broadcast_alert_generation` show it. -/
def alertCall (device message : String) : String :=
  "alerta(\"" ++ device ++ "\", \"" ++ message ++ "\")"

/-- Modelled from the spec: the comment line that precedes a broadcast
expansion in the generated text (`src/tests/programa2.py` line 17). -/
def broadcastComment : String :=
  "# Alerta broadcast para múltiplos dispositivos"

/-- Modelled from the spec: lowering of a `BroadcastAlertAction` — the
broadcast comment, then one independent plain-alert call per device of
the list, in list order, all carrying the same message. -/
def genBroadcastAlert (message : String) (devices : List String) :
    List String :=
  broadcastComment :: devices.map (fun d => alertCall d message)

/-- Modelled from the spec: lowering of a single-target `AlertAction`
without an attached observation — one plain-alert call and nothing else
(`src/tests/programa3.py`). -/
def genAlertPlain (message device : String) : List String :=
  [alertCall device message]

/-!
Input families used to state the general chain claim: an arbitrary
condition chain `name₁ op₁ lit₁ && name₂ op₂ lit₂ && ...` at source line
1, given as the token list the lexer would produce for it, and the
right-nested `Observation` chain the parser is claimed to build from it.
-/

/-- A literal operand of a comparison: integer or boolean. -/
inductive LitVal where
  | num (n : Nat)
  | bool (b : Bool)

/-- The token value carried by a literal. -/
def LitVal.toVal : LitVal → TokenVal
  | .num n => .num n
  | .bool b => .bool b

/-- The token kind of a literal (`NUM` or `BOOL`). -/
def LitVal.tokTy : LitVal → String
  | .num _ => "NUM"
  | .bool _ => "BOOL"

/-- One comparison of a condition chain: variable name, relational
operator, literal operand. -/
structure CondLink where
  name : String
  op : String
  lit : LitVal

/-- The three tokens of one comparison, all on line 1. -/
def linkTokens (l : CondLink) : List Token :=
  [⟨"OBSERVATION", .str l.name, 1⟩, ⟨"OPLOGIC", .str l.op, 1⟩,
   ⟨l.lit.tokTy, l.lit.toVal, 1⟩]

/-- The `&&` token. -/
def andToken : Token := ⟨"AND", .str "&&", 1⟩

/-- Token stream of a whole chain: comparisons joined by `&&`. -/
def condTokens : List CondLink → List Token
  | [] => []
  | [l] => linkTokens l
  | l :: l2 :: rest => linkTokens l ++ andToken :: condTokens (l2 :: rest)

/-- The right-nested `Observation` chain for the links `l :: links`:
the i-th node holds the i-th comparison, its `next_obs` holds the rest,
and the last node's `next_obs` is `none`. -/
def chainOf : CondLink → List CondLink → Observation
  | l, [] => .mk l.name l.op ⟨l.lit.toVal, 1⟩ none 1
  | l, l2 :: rest => .mk l.name l.op ⟨l.lit.toVal, 1⟩ (some (chainOf l2 rest)) 1

/-!
Theorems.
-/

/-- C1, as stated, is false: `||` is not a token of `DeviceLexer` (each
`|` is an illegal character) and `parse_observation` only continues a
chain after an `AND` token, so the OR-joined source condition
`x > 5 || y < 3` does not parse into a chain recording an OR link: the
produced chain is the single link `x > 5` with `next_obs = none`, and no
token of an `OR` kind exists in the stream. -/
theorem claim_C1_counterexample :
    (tokenize "x > 5 || y < 3").2 = [⟨'|', 1⟩, ⟨'|', 1⟩] ∧
    ((tokenize "x > 5 || y < 3").1.all (fun t => t.ty ≠ "OR")) = true ∧
    parseObservation ((tokenize "x > 5 || y < 3").1.length + 1)
        (tokenize "x > 5 || y < 3").1 0 =
      .ok (.mk "x" ">" ⟨.num 5, 1⟩ none 1, 3) :=
  ⟨rfl, rfl, rfl⟩

/-- C1 (amended): the only condition combinator the grammar accepts is
the AND combinator `&&`: `temp > 25 && temp < 35` tokenizes and parses
into a chain whose first link is joined to the next by the AND token,
while `||` never tokenizes — each `|` is an `IllegalCharacter` lexical
error and no OR link is ever produced. -/
theorem claim_C1 :
    parseObservation ((tokenize "temp > 25 && temp < 35").1.length + 1)
        (tokenize "temp > 25 && temp < 35").1 0 =
      .ok (.mk "temp" ">" ⟨.num 25, 1⟩
            (some (.mk "temp" "<" ⟨.num 35, 1⟩ none 1)) 1, 7) ∧
    tokenize "||" = ([], [⟨'|', 1⟩, ⟨'|', 1⟩]) :=
  ⟨rfl, rfl⟩

/-- C3: in the program `dispositivo : s` / `set temp = 25 ligar s.`, the
`set` statement lacks its terminating period; parsing records a
`SyntaxError` that names line 2 — the line where the period is missing —
and the parse raises instead of returning a `Program`, so the statement
is not silently dropped. -/
theorem claim_C3 :
    parseSource "dispositivo : s\nset temp = 25 ligar s." =
      .raised
        ⟨"Parsing failed:\nLinha 2: Erro sintático na linha 2: Expected 'PONTO' but found 'LIGAR' ('ligar'). Commands must end with a period (.)\nErro sintático: Parsing completed with errors:\nLinha 2: Erro sintático na linha 2: Expected 'PONTO' but found 'LIGAR' ('ligar'). Commands must end with a period (.)",
          0, ""⟩
        ["Linha 2: Erro sintático na linha 2: Expected 'PONTO' but found 'LIGAR' ('ligar'). Commands must end with a period (.)",
         "Erro sintático: Parsing completed with errors:\nLinha 2: Erro sintático na linha 2: Expected 'PONTO' but found 'LIGAR' ('ligar'). Commands must end with a period (.)"] :=
  rfl

/-- C7: the empty source tokenizes to zero tokens, `parse` raises the
distinct empty-input `ParseError` before any error is collected, no
`Program` is produced, and the compile reports exactly one error. -/
theorem claim_C7 :
    tokenize "" = ([], []) ∧
    parse [] = .raised ⟨"Empty input - no tokens found", 0, ""⟩ [] ∧
    analyzeErrors "" = ["Erro sintático: Empty input - no tokens found"] :=
  ⟨rfl, rfl, rfl⟩

/-- C10, as stated, is false for its own cited instance `truth`: the
word `truth` does not begin with `true` (its fourth character is `t`,
not `e`), so the `BOOL` pattern does not fire and `truth` tokenizes as
one single identifier token. -/
theorem claim_C10_counterexample :
    tokenize "truth" = ([⟨"OBSERVATION", .str "truth", 1⟩], []) :=
  rfl

/-- C10 (amended): for every identifier that does begin with `true` or
`false` and continues with further characters (`falsey`, `true1`,
`truest` — not `truth`, which does not begin with `true`), the
boolean-literal pattern, tried before the identifier pattern and written
without a trailing word boundary, consumes the `true`/`false` head as a
`BOOL` token and the remaining characters are tokenized separately. -/
theorem claim_C10 :
    (∀ fuel w line, scan (fuel + 1) ('t' :: 'r' :: 'u' :: 'e' :: w) line =
      (⟨"BOOL", .bool true, line⟩ :: (scan fuel w line).1,
       (scan fuel w line).2)) ∧
    (∀ fuel w line,
      scan (fuel + 1) ('f' :: 'a' :: 'l' :: 's' :: 'e' :: w) line =
      (⟨"BOOL", .bool false, line⟩ :: (scan fuel w line).1,
       (scan fuel w line).2)) ∧
    tokenize "falsey" =
      ([⟨"BOOL", .bool false, 1⟩, ⟨"OBSERVATION", .str "y", 1⟩], []) ∧
    tokenize "true1" =
      ([⟨"BOOL", .bool true, 1⟩, ⟨"NUM", .num 1, 1⟩], []) ∧
    tokenize "truest" =
      ([⟨"BOOL", .bool true, 1⟩, ⟨"OBSERVATION", .str "st", 1⟩], []) :=
  ⟨fun _ _ _ => rfl, fun _ _ _ => rfl, rfl, rfl, rfl⟩

/-- C2, as stated, is false: for the input `dispositivo : d` /
`set x =`, whose token stream ends where a literal is required, the
parser does not record a syntax error and synchronize — it dereferences
the `None` current token (`self.current_token.value` in
`parse_variable`) and the resulting `AttributeError` escapes every
`except ParseError` handler, leaving the collected error list empty. -/
theorem claim_C2_counterexample :
    parseSource "dispositivo : d\nset x =" = .crash ∧
    parseCollected (tokenize "dispositivo : d\nset x =").1 = [] :=
  ⟨rfl, rfl⟩

/-- C8: at every position where no token pattern matches (and the
character is not ignored whitespace or a newline), the lexer records an
`IllegalCharacter` error carrying the current line number, advances past
exactly one character, and resumes scanning the rest unchanged — so all
remaining tokens are still produced and the scan never aborts.
Concretely, `set temp % = 25` yields all four surrounding tokens plus
one report for `%` on line 1. -/
theorem claim_C8 :
    (∀ (fuel : Nat) cs line (c : Char), c ≠ ' ' → c ≠ '\t' → c ≠ '\n' →
      matchToken (c :: cs) = none →
      scan (fuel + 1) (c :: cs) line =
        ((scan fuel cs line).1, ⟨c, line⟩ :: (scan fuel cs line).2)) ∧
    tokenize "set temp % = 25" =
      ([⟨"SET", .str "set", 1⟩, ⟨"OBSERVATION", .str "temp", 1⟩,
        ⟨"IGUAL", .str "=", 1⟩, ⟨"NUM", .num 25, 1⟩], [⟨'%', 1⟩]) := by
  constructor
  · intro fuel cs line c h1 h2 h3 h4
    simp [scan, h1, h2, h3, h4]
  · rfl

/-- Witness for C8 at the illegal character `%` on a one-character
input. -/
theorem claim_C8_witness :
    ('%' ≠ ' ' ∧ '%' ≠ '\t' ∧ '%' ≠ '\n' ∧ matchToken ['%'] = none) ∧
    scan (0 + 1) ['%'] 1 = ((scan 0 [] 1).1, ⟨'%', 1⟩ :: (scan 0 [] 1).2) :=
  ⟨⟨by decide, by decide, by decide, rfl⟩,
   claim_C8.1 0 [] 1 '%' (by decide) (by decide) (by decide) rfl⟩

/-- C4: lowering a `BroadcastAlertAction` with a K-element device list
(K ≥ 1) emits exactly K independent single-target plain-alert calls, in
device-list order, each passing the same message; the broadcast form is
emitted even for a one-element list and differs from the single-target
`AlertAction` lowering. -/
theorem claim_C4 : ∀ (message : String) (devices : List String),
    1 ≤ devices.length →
    (genBroadcastAlert message devices).tail =
      devices.map (fun d => alertCall d message) ∧
    (genBroadcastAlert message devices).tail.length = devices.length ∧
    (∀ i, (genBroadcastAlert message devices).tail.get? i =
      (devices.get? i).map (fun d => alertCall d message)) ∧
    (∀ d, devices = [d] →
      genBroadcastAlert message devices ≠ genAlertPlain message d) := by
  intro message devices _
  refine ⟨rfl, by simp [genBroadcastAlert], ?_, ?_⟩
  · intro i
    simp [genBroadcastAlert]
  · intro d hd hEq
    subst hd
    have := congrArg List.length hEq
    simp [genBroadcastAlert, genAlertPlain] at this

/-- Witness for C4: the three-device broadcast of the test suite. -/
theorem claim_C4_witness :
    1 ≤ (["sensor1", "led1", "buzzer"] : List String).length ∧
    (genBroadcastAlert "Emergency" ["sensor1", "led1", "buzzer"]).tail =
      ["sensor1", "led1", "buzzer"].map (fun d => alertCall d "Emergency") :=
  ⟨by decide,
   (claim_C4 "Emergency" ["sensor1", "led1", "buzzer"] (by decide)).1⟩

/-!
Helper lemmas: no token ever carries the `NAMEDEVICE` kind, because the
`OBSERVATION` alternative precedes `NAMEDEVICE` in the master pattern
and its language is a superset.
-/

theorem keywordKinds_ne : ∀ p ∈ keywordList, p.2 ≠ "NAMEDEVICE" := by
  decide

theorem symbolKinds_ne : ∀ p ∈ symbolList, p.2 ≠ "NAMEDEVICE" := by
  decide

theorem reservedUpper_ne : ∀ s ∈ reservedWords, pyUpper s ≠ "NAMEDEVICE" := by
  decide

theorem matchKeyword_ty {cs : List Char} {ty : String} {v : TokenVal}
    {n : Nat} (h : matchKeyword cs = some (ty, v, n)) : ty ≠ "NAMEDEVICE" := by
  simp only [matchKeyword, Option.map_eq_some'] at h
  obtain ⟨p, hp, heq⟩ := h
  have hm := List.mem_of_find?_eq_some hp
  have hty : p.2 = ty := congrArg Prod.fst heq
  exact hty ▸ keywordKinds_ne p hm

theorem matchAND_ty {cs : List Char} {ty : String} {v : TokenVal} {n : Nat}
    (h : matchAND cs = some (ty, v, n)) : ty = "AND" := by
  unfold matchAND at h
  split at h <;> simp_all

theorem matchOPLOGIC_ty {cs : List Char} {ty : String} {v : TokenVal}
    {n : Nat} (h : matchOPLOGIC cs = some (ty, v, n)) : ty = "OPLOGIC" := by
  simp only [matchOPLOGIC, Option.map_eq_some'] at h
  obtain ⟨op, _, heq⟩ := h
  exact (congrArg Prod.fst heq).symm

theorem matchSymbol_ty {cs : List Char} {ty : String} {v : TokenVal}
    {n : Nat} (h : matchSymbol cs = some (ty, v, n)) : ty ≠ "NAMEDEVICE" := by
  cases cs with
  | nil => simp [matchSymbol] at h
  | cons c rest =>
    simp only [matchSymbol, Option.map_eq_some'] at h
    obtain ⟨p, hp, heq⟩ := h
    have hm := List.mem_of_find?_eq_some hp
    have hty : p.2 = ty := congrArg Prod.fst heq
    exact hty ▸ symbolKinds_ne p hm

theorem matchNUM_ty {cs : List Char} {ty : String} {v : TokenVal} {n : Nat}
    (h : matchNUM cs = some (ty, v, n)) : ty = "NUM" := by
  simp only [matchNUM] at h
  split at h <;> simp_all

theorem matchBOOL_ty {cs : List Char} {ty : String} {v : TokenVal} {n : Nat}
    (h : matchBOOL cs = some (ty, v, n)) : ty = "BOOL" := by
  unfold matchBOOL at h
  split at h
  · simp_all
  · split at h <;> simp_all

theorem matchMSG_ty {cs : List Char} {ty : String} {v : TokenVal} {n : Nat}
    (h : matchMSG cs = some (ty, v, n)) : ty = "MSG" := by
  simp only [matchMSG] at h
  split at h
  · split at h <;> simp_all
  · simp_all

theorem matchOBSERVATION_ty {cs : List Char} {ty : String} {v : TokenVal}
    {n : Nat} (h : matchOBSERVATION cs = some (ty, v, n)) :
    ty ≠ "NAMEDEVICE" := by
  cases cs with
  | nil => simp [matchOBSERVATION] at h
  | cons c rest =>
    simp only [matchOBSERVATION] at h
    split at h
    · rw [Option.some.injEq] at h
      have hty := congrArg Prod.fst h
      simp only at hty
      split at hty
      · rename_i hc
        have hmem : String.mk ((c :: rest).takeWhile isWordChar) ∈
            reservedWords := by
          simpa using hc
        exact hty ▸ reservedUpper_ne _ hmem
      · exact hty ▸ (by decide)
    · simp at h

theorem matchOBSERVATION_none {cs : List Char}
    (h : matchOBSERVATION cs = none) : matchNAMEDEVICE cs = none := by
  cases cs with
  | nil => rfl
  | cons c rest =>
    simp only [matchOBSERVATION] at h
    simp only [matchNAMEDEVICE]
    split at h
    · simp at h
    · rename_i hc
      rw [if_neg hc]

theorem matchToken_ty {cs : List Char} {ty : String} {v : TokenVal}
    {n : Nat} (h : matchToken cs = some (ty, v, n)) : ty ≠ "NAMEDEVICE" := by
  unfold matchToken at h
  cases h1 : matchKeyword cs with
  | some r =>
    rw [h1] at h
    simp only at h
    rw [h] at h1
    exact matchKeyword_ty h1
  | none =>
  rw [h1] at h
  simp only at h
  cases h2 : matchAND cs with
  | some r =>
    rw [h2] at h
    simp only at h
    rw [h] at h2
    rw [matchAND_ty h2]
    decide
  | none =>
  rw [h2] at h
  simp only at h
  cases h3 : matchOPLOGIC cs with
  | some r =>
    rw [h3] at h
    simp only at h
    rw [h] at h3
    rw [matchOPLOGIC_ty h3]
    decide
  | none =>
  rw [h3] at h
  simp only at h
  cases h4 : matchSymbol cs with
  | some r =>
    rw [h4] at h
    simp only at h
    rw [h] at h4
    exact matchSymbol_ty h4
  | none =>
  rw [h4] at h
  simp only at h
  cases h5 : matchNUM cs with
  | some r =>
    rw [h5] at h
    simp only at h
    rw [h] at h5
    rw [matchNUM_ty h5]
    decide
  | none =>
  rw [h5] at h
  simp only at h
  cases h6 : matchBOOL cs with
  | some r =>
    rw [h6] at h
    simp only at h
    rw [h] at h6
    rw [matchBOOL_ty h6]
    decide
  | none =>
  rw [h6] at h
  simp only at h
  cases h7 : matchMSG cs with
  | some r =>
    rw [h7] at h
    simp only at h
    rw [h] at h7
    rw [matchMSG_ty h7]
    decide
  | none =>
  rw [h7] at h
  simp only at h
  cases h8 : matchOBSERVATION cs with
  | some r =>
    rw [h8] at h
    simp only at h
    rw [h] at h8
    exact matchOBSERVATION_ty h8
  | none =>
  rw [h8] at h
  simp only at h
  rw [matchOBSERVATION_none h8] at h
  simp at h

theorem scan_ty :
    ∀ (fuel : Nat) cs line t, t ∈ (scan fuel cs line).1 →
      t.ty ≠ "NAMEDEVICE" := by
  intro fuel
  induction fuel with
  | zero => intro cs line t ht; simp [scan] at ht
  | succ f ih =>
    intro cs line t ht
    cases cs with
    | nil => simp [scan] at ht
    | cons c rest =>
      simp only [scan] at ht
      split at ht
      · exact ih rest line t ht
      · split at ht
        · exact ih rest (line + 1) t ht
        · split at ht
          all_goals
            first
            | exact ih rest line t ht
            | (rename_i heq
               rcases List.mem_cons.mp ht with hh | hh
               · rw [hh]
                 exact matchToken_ty heq
               · exact ih _ line t hh)

/-- C9: for every input, no produced token carries the `NAMEDEVICE`
kind — the variable-name `OBSERVATION` pattern precedes `NAMEDEVICE`
and its language is a superset (whenever `OBSERVATION` fails at a
position, `NAMEDEVICE` fails too) — and every parser position expecting
a device name accepts the `OBSERVATION` kind: a program whose devices
are digit-bearing identifiers parses in all four device-name
positions. -/
theorem claim_C9 :
    (∀ s t, t ∈ (tokenize s).1 → t.ty ≠ "NAMEDEVICE") ∧
    (∀ cs, matchOBSERVATION cs = none → matchNAMEDEVICE cs = none) ∧
    parseSource "dispositivo : led1, temp\nligar led1.\nenviar alerta (\"m\") led1.\nenviar alerta (\"m\") para todos : led1, led2." =
      .ok ⟨[⟨"led1", some "temp", 1⟩],
           [.act (.simple "ligar" "led1" 2),
            .act (.alert "m" "led1" none 3),
            .act (.broadcast "m" ["led1", "led2"] 4)]⟩ := by
  refine ⟨?_, ?_, rfl⟩
  · intro s t ht
    exact scan_ty _ _ _ _ ht
  · intro cs h
    exact matchOBSERVATION_none h

/-- Witness for C9 on a concrete token and a concrete non-identifier
position. -/
theorem claim_C9_witness :
    ((⟨"LIGAR", TokenVal.str "ligar", 1⟩ : Token) ∈
        (tokenize "ligar led1").1 ∧
      (⟨"LIGAR", TokenVal.str "ligar", 1⟩ : Token).ty ≠ "NAMEDEVICE") ∧
    (matchOBSERVATION ['1'] = none ∧ matchNAMEDEVICE ['1'] = none) :=
  ⟨⟨by decide, claim_C9.1 "ligar led1" _ (by decide)⟩,
   ⟨rfl, claim_C9.2.1 ['1'] rfl⟩⟩

/-!
Helper lemmas about the synchronization routine and the outcome shape
of `parse`.
-/

theorem syncSkip_mem (l : List Token) (t : Token)
    (h : l.get? (syncSkip l) = some t) : syncKinds.contains t.ty = true := by
  induction l with
  | nil => simp [syncSkip] at h
  | cons a rest ih =>
    simp only [syncSkip] at h
    split at h
    · rename_i hc
      simp at h
      rw [← h]
      exact hc
    · simp at h
      exact ih (by simpa using h)

theorem syncSkip_before (l : List Token) :
    ∀ (k : Nat), k < syncSkip l → ∀ t, l.get? k = some t →
      syncKinds.contains t.ty = false := by
  induction l with
  | nil => intro k hk; simp [syncSkip] at hk
  | cons a rest ih =>
    intro k hk t h
    simp only [syncSkip] at hk
    split at hk
    · omega
    · rename_i hc
      cases k with
      | zero =>
        simp at h
        rw [← h]
        simpa using hc
      | succ k2 =>
        simp at h
        exact ih k2 (by omega) t (by simpa using h)

theorem listGet_drop_add (ts : List Token) :
    ∀ (i j : Nat), (ts.drop i).get? j = ts.get? (i + j) := by
  induction ts with
  | nil => intro i j; simp
  | cons a rest ih =>
    intro i j
    cases i with
    | zero => simp
    | succ i2 =>
      simp only [List.drop_succ_cons]
      rw [ih i2 j]
      simp [Nat.succ_add]

theorem syncIdx_spec (ts : List Token) (i : Nat) :
    i ≤ syncIdx ts i ∧
    (∀ t, curTok ts (syncIdx ts i) = some t →
      syncKinds.contains t.ty = true) ∧
    (∀ k, i ≤ k → k < syncIdx ts i → ∀ t, curTok ts k = some t →
      syncKinds.contains t.ty = false) := by
  refine ⟨Nat.le_add_right _ _, ?_, ?_⟩
  · intro t ht
    apply syncSkip_mem (ts.drop i)
    rw [listGet_drop_add]
    exact ht
  · intro k hik hk t ht
    apply syncSkip_before (ts.drop i) (k - i)
    · simp only [syncIdx] at hk
      omega
    · rw [listGet_drop_add]
      have : i + (k - i) = k := by omega
      rw [this]
      exact ht

theorem parseFull_raised (ts : List Token) (e : ParseError)
    (errs : List String) (hne : ts ≠ [])
    (h : (parseFull ts).1 = .raised e errs) : errs ≠ [] := by
  have hemp : ts.isEmpty = false := by
    simpa [List.isEmpty_iff] using hne
  rcases hpp : parseProgram ts with ⟨errs0, res⟩
  rcases res with e0 | pk
  · rcases e0 with ⟨exc, idx⟩
    cases exc with
    | parseErr e1 =>
      simp only [parseFull, hemp, hpp, Bool.false_eq_true, if_false] at h
      by_cases hc : errs0.contains e1.pyStr = true
      · rw [if_pos hc] at h
        obtain ⟨-, h2⟩ := ParseOutcome.raised.inj h
        intro habs
        rw [habs] at h2
        rw [h2] at hc
        simp at hc
      · rw [if_neg hc] at h
        obtain ⟨-, h2⟩ := ParseOutcome.raised.inj h
        intro habs
        rw [habs] at h2
        simp at h2
    | attrErr => simp [parseFull, hemp, hpp] at h
    | fuelOut => simp [parseFull, hemp, hpp] at h
  · rcases pk with ⟨p, k⟩
    simp only [parseFull, hemp, hpp, Bool.false_eq_true, if_false] at h
    split at h
    · simp at h
    · rename_i hne1
      split at h
      · rename_i hc
        obtain ⟨-, h2⟩ := ParseOutcome.raised.inj h
        intro habs
        rw [habs] at h2
        rw [h2] at hne1
        simp at hne1
      · obtain ⟨-, h2⟩ := ParseOutcome.raised.inj h
        intro habs
        rw [habs] at h2
        simp at h2

theorem parseFull_ok (ts : List Token) (p : Program)
    (h : (parseFull ts).1 = .ok p) : (parseFull ts).2 = [] := by
  by_cases hemp : ts.isEmpty
  · simp [parseFull, hemp] at h
  · simp only [Bool.not_eq_true] at hemp
    rcases hpp : parseProgram ts with ⟨errs0, res⟩
    rcases res with e0 | pk
    · rcases e0 with ⟨exc, idx⟩
      cases exc <;> simp [parseFull, hemp, hpp] at h ⊢
    · rcases pk with ⟨p0, k⟩
      simp only [parseFull, hemp, hpp, Bool.false_eq_true, if_false] at h ⊢
      split at h
      · rename_i hemp1
        rw [if_pos hemp1]
        simpa using hemp1
      · simp at h

theorem parseDevicesLoop_sub :
    ∀ (fuel : Nat) ts i acc r (j : Nat),
      parseDevicesLoop fuel ts i acc = .ok (r, j) → ∃ ext, r = acc ++ ext := by
  intro fuel
  induction fuel with
  | zero => intro ts i acc r j h; simp [parseDevicesLoop] at h
  | succ f ih =>
    intro ts i acc r j h
    simp only [parseDevicesLoop] at h
    split at h
    · split at h
      · simp at h
      · rename_i d j0 heq
        obtain ⟨ext, hext⟩ := ih ts j0 (acc ++ [d]) r j h
        exact ⟨[d] ++ ext, by simp [hext]⟩
    · simp at h
      exact ⟨[], by simp [← h.1]⟩

theorem parseDevices_ok_len {ts : List Token} {i : Nat} {devs : List Device}
    {j : Nat} (h : parseDevices ts i = .ok (devs, j)) : 1 ≤ devs.length := by
  simp only [parseDevices] at h
  split at h
  · split at h
    · simp at h
    · rename_i d j0 heq
      obtain ⟨ext, hext⟩ := parseDevicesLoop_sub _ _ _ _ _ _ h
      rw [hext]
      simp
  · simp at h

theorem parseCommandsLoop_ok_ne :
    ∀ (fuel : Nat) ts i errs acc es cmds (k : Nat),
      parseCommandsLoop fuel ts i errs acc = (es, .ok (cmds, k)) →
      cmds ≠ [] := by
  intro fuel
  induction fuel with
  | zero => intro ts i errs acc es cmds k h; simp [parseCommandsLoop] at h
  | succ f ih =>
    intro ts i errs acc es cmds k h
    simp only [parseCommandsLoop] at h
    split at h
    · split at h
      · exact ih _ _ _ _ _ _ _ h
      · exact ih _ _ _ _ _ _ _ h
      · simp at h
      · simp at h
    · split at h
      · simp at h
      · rename_i hne
        simp at h
        rw [← h.2.1]
        simpa using hne

theorem parse_ok_struct {ts : List Token} {p : Program}
    (h : parse ts = .ok p) :
    1 ≤ p.devices.length ∧ 1 ≤ p.commands.length := by
  simp only [parse] at h
  by_cases hemp : ts.isEmpty
  · simp [parseFull, hemp] at h
  · rcases hpp : parseProgram ts with ⟨errs0, res⟩
    rcases res with e0 | pk
    · rcases e0 with ⟨exc, idx⟩
      cases exc <;> simp [parseFull, hemp, hpp] at h
    · rcases pk with ⟨p0, k⟩
      simp only [parseFull, hemp, hpp, Bool.false_eq_true, if_false] at h
      split at h
      · simp at h
        -- p = p0; now dissect parseProgram
        simp only [parseProgram] at hpp
        split at hpp
        · simp at hpp
        · rename_i devs j heq
          split at hpp
          · simp at hpp
          · rename_i errs1 cmds k0 heq2
            simp at hpp
            obtain ⟨-, hp0, -⟩ := hpp
            rw [← h, ← hp0]
            refine ⟨parseDevices_ok_len heq, ?_⟩
            have := parseCommandsLoop_ok_ne _ _ _ _ _ _ _ _ heq2
            simpa [Nat.one_le_iff_ne_zero, List.length_eq_zero] using this
      · simp at h

/-- C2 (amended): the parser's panic-mode recovery — `synchronize`
discards tokens from the failure point up to, and not past, the first
token whose kind belongs to {DISPOSITIVO, SET, SE, LIGAR, DESLIGAR,
ENVIAR}; one parse call collects several syntax errors (the concrete
two-error program shows both recorded); a raised parse always carries a
non-empty collected list, and a successful parse leaves it empty — with
the carve-out of the counterexample: an error at end of input at a
literal or device-name position crashes with an `AttributeError` before
recording, instead of being collected. -/
theorem claim_C2 :
    (∀ ts i, i ≤ syncIdx ts i ∧
      (∀ t, curTok ts (syncIdx ts i) = some t →
        syncKinds.contains t.ty = true) ∧
      (∀ k, i ≤ k → k < syncIdx ts i → ∀ t, curTok ts k = some t →
        syncKinds.contains t.ty = false)) ∧
    parseSource "dispositivo : d\nset x 5.\ndesligar 7.\nligar d." =
      .raised
        ⟨"Parsing failed:\nLinha 2: Erro sintático na linha 2: Expected 'IGUAL' but found 'NUM' ('5'). Assignments require an equals sign (=)\nLinha 3: Erro sintático na linha 3: Expected device name but found '7'\nErro sintático: Parsing completed with errors:\nLinha 2: Erro sintático na linha 2: Expected 'IGUAL' but found 'NUM' ('5'). Assignments require an equals sign (=)\nLinha 3: Erro sintático na linha 3: Expected device name but found '7'",
          0, ""⟩
        ["Linha 2: Erro sintático na linha 2: Expected 'IGUAL' but found 'NUM' ('5'). Assignments require an equals sign (=)",
         "Linha 3: Erro sintático na linha 3: Expected device name but found '7'",
         "Erro sintático: Parsing completed with errors:\nLinha 2: Erro sintático na linha 2: Expected 'IGUAL' but found 'NUM' ('5'). Assignments require an equals sign (=)\nLinha 3: Erro sintático na linha 3: Expected device name but found '7'"] ∧
    (∀ ts e errs, ts ≠ [] → parse ts = .raised e errs → errs ≠ []) ∧
    (∀ ts p, parse ts = .ok p → parseCollected ts = []) := by
  refine ⟨syncIdx_spec, rfl, ?_, ?_⟩
  · intro ts e errs hne h
    exact parseFull_raised ts e errs hne h
  · intro ts p h
    exact parseFull_ok ts p h

/-- Witness for C2: the synchronization token reached from the first
error of the two-error program is `DESLIGAR`; a concrete failing parse
has a non-empty collected list; a concrete successful parse leaves the
collected list empty. -/
theorem claim_C2_witness :
    syncKinds.contains (Token.mk "DESLIGAR" (.str "desligar") 3).ty = true ∧
    ((tokenize "set temp = 25.").1 ≠ [] ∧
      ["Erro sintático na linha 1: Expected 'dispositivo' at start of program"]
        ≠ ([] : List String)) ∧
    parseCollected (tokenize "dispositivo : s\nligar s.").1 = [] :=
  ⟨(claim_C2.1 (tokenize "dispositivo : d\nset x 5.\ndesligar 7.\nligar d.").1
      5).2.1 _ rfl,
   ⟨by decide,
    claim_C2.2.2.1 (tokenize "set temp = 25.").1
      ⟨"Parsing failed:\nErro sintático na linha 1: Expected 'dispositivo' at start of program", 0, ""⟩
      ["Erro sintático na linha 1: Expected 'dispositivo' at start of program"]
      (by decide) rfl⟩,
   claim_C2.2.2.2 (tokenize "dispositivo : s\nligar s.").1
     ⟨[⟨"s", none, 1⟩], [.act (.simple "ligar" "s" 2)]⟩ rfl⟩

/-- C6: every successful parse returns a `Program` with at least one
device declaration and at least one command; an input with an empty
device section, and an input with an empty command section, are both
rejected with a syntax error instead of yielding a `Program`. -/
theorem claim_C6 :
    (∀ ts p, parse ts = .ok p →
      1 ≤ p.devices.length ∧ 1 ≤ p.commands.length) ∧
    parseSource "set temp = 25." =
      .raised
        ⟨"Parsing failed:\nErro sintático na linha 1: Expected 'dispositivo' at start of program",
          0, ""⟩
        ["Erro sintático na linha 1: Expected 'dispositivo' at start of program"] ∧
    parseSource "dispositivo : s" =
      .raised
        ⟨"Parsing failed:\nErro sintático: Expected at least one command",
          0, ""⟩
        ["Erro sintático: Expected at least one command"] :=
  ⟨fun _ _ h => parse_ok_struct h, rfl, rfl⟩

/-!
Helper lemmas for the chain claim: `parse_observation` on the token
stream of an arbitrary chain builds exactly the right-nested
`Observation` chain.
-/

theorem curTok_append (pre ts : List Token) (k : Nat) :
    curTok (pre ++ ts) (pre.length + k) = curTok ts k := by
  simp only [curTok]
  rw [List.get?_append_right (Nat.le_add_right _ _)]
  congr 1
  omega

theorem curTok_append_zero (pre ts : List Token) :
    curTok (pre ++ ts) pre.length = curTok ts 0 := by
  simpa using curTok_append pre ts 0

theorem consumeExp_ok {ts : List Token} {i : Nat} {e : String} {t : Token}
    (h : curTok ts i = some t) (hty : t.ty = e) :
    consumeExp ts i e = .ok t := by
  simp [consumeExp, h, hty]

theorem parseObservation_step (ts : List Token) (i : Nat)
    (t0 t1 t2 : Token) (v : TokenVal)
    (h0 : curTok ts i = some t0) (hty0 : t0.ty = "OBSERVATION")
    (h1 : curTok ts (i + 1) = some t1) (hty1 : t1.ty = "OPLOGIC")
    (h2 : curTok ts (i + 2) = some t2) (hv2 : t2.val = v)
    (hty2 : t2.ty = "NUM" ∨ t2.ty = "BOOL") :
    ∀ fuel, parseObservation (fuel + 1) ts i =
      (if matchTok ts (i + 3) "AND" then
        match consumeExp ts (i + 3) "AND" with
        | .error e => .error e
        | .ok _ =>
          match parseObservation fuel ts (i + 4) with
          | .error e => .error e
          | .ok (next, j) =>
            .ok (.mk t0.val.pyStr t1.val.pyStr ⟨v, t2.lineno⟩
              (some next) (curLine ts i), j)
      else
        .ok (.mk t0.val.pyStr t1.val.pyStr ⟨v, t2.lineno⟩ none
          (curLine ts i), i + 3)) := by
  intro fuel
  have e0 := consumeExp_ok h0 hty0
  have e1 := consumeExp_ok h1 hty1
  have hvv : parseVariable ts (i + 2) = .ok (⟨v, t2.lineno⟩, i + 2 + 1) := by
    rcases hty2 with hty2 | hty2 <;>
      simp [parseVariable, matchTok, consumeExp, curLine, h2, hty2, hv2]
  simp only [parseObservation, e0, e1, hvv]

theorem parseObservation_condTokens :
    ∀ (links : List CondLink) (fuel : Nat) (l : CondLink)
      (pre rest : List Token),
      links.length + 1 ≤ fuel →
      (∀ t, rest.head? = some t → t.ty ≠ "AND") →
      parseObservation fuel (pre ++ (condTokens (l :: links) ++ rest))
          pre.length =
        .ok (chainOf l links,
          pre.length + (condTokens (l :: links)).length) := by
  intro links
  induction links with
  | nil =>
    intro fuel l pre rest hf hr
    cases fuel with
    | zero => omega
    | succ f =>
      have hL : condTokens [l] ++ rest =
          (⟨"OBSERVATION", .str l.name, 1⟩ : Token) ::
          ⟨"OPLOGIC", .str l.op, 1⟩ ::
          ⟨l.lit.tokTy, l.lit.toVal, 1⟩ :: rest := by
        simp [condTokens, linkTokens]
      rw [hL]
      have h0 : curTok (pre ++ ((⟨"OBSERVATION", .str l.name, 1⟩ : Token) ::
          ⟨"OPLOGIC", .str l.op, 1⟩ ::
          ⟨l.lit.tokTy, l.lit.toVal, 1⟩ :: rest)) pre.length =
          some ⟨"OBSERVATION", .str l.name, 1⟩ := by
        rw [curTok_append_zero]
        rfl
      have h1 : curTok (pre ++ ((⟨"OBSERVATION", .str l.name, 1⟩ : Token) ::
          ⟨"OPLOGIC", .str l.op, 1⟩ ::
          ⟨l.lit.tokTy, l.lit.toVal, 1⟩ :: rest)) (pre.length + 1) =
          some ⟨"OPLOGIC", .str l.op, 1⟩ := by
        rw [curTok_append]
        rfl
      have h2 : curTok (pre ++ ((⟨"OBSERVATION", .str l.name, 1⟩ : Token) ::
          ⟨"OPLOGIC", .str l.op, 1⟩ ::
          ⟨l.lit.tokTy, l.lit.toVal, 1⟩ :: rest)) (pre.length + 2) =
          some ⟨l.lit.tokTy, l.lit.toVal, 1⟩ := by
        rw [curTok_append]
        rfl
      have h3 : curTok (pre ++ ((⟨"OBSERVATION", .str l.name, 1⟩ : Token) ::
          ⟨"OPLOGIC", .str l.op, 1⟩ ::
          ⟨l.lit.tokTy, l.lit.toVal, 1⟩ :: rest)) (pre.length + 3) =
          rest.head? := by
        rw [curTok_append]
        cases rest <;> rfl
      have hstep := parseObservation_step _ _ _ _ _ _ h0 rfl h1 rfl h2 rfl
        (by cases l.lit <;> simp [LitVal.tokTy]) f
      rw [hstep]
      have hm : matchTok (pre ++ ((⟨"OBSERVATION", .str l.name, 1⟩ : Token) ::
          ⟨"OPLOGIC", .str l.op, 1⟩ ::
          ⟨l.lit.tokTy, l.lit.toVal, 1⟩ :: rest)) (pre.length + 3) "AND" =
          false := by
        cases rest with
        | nil => simp [matchTok, h3]
        | cons r rs =>
          have hrty : r.ty ≠ "AND" := hr r rfl
          simp [matchTok, h3, hrty]
      rw [hm]
      simp [curLine, h0, TokenVal.pyStr, chainOf, condTokens, linkTokens]
  | cons l2 links2 ih =>
    intro fuel l pre rest hf hr
    cases fuel with
    | zero => simp at hf
    | succ f =>
      have hL : condTokens (l :: l2 :: links2) ++ rest =
          (⟨"OBSERVATION", .str l.name, 1⟩ : Token) ::
          ⟨"OPLOGIC", .str l.op, 1⟩ ::
          ⟨l.lit.tokTy, l.lit.toVal, 1⟩ :: andToken ::
          (condTokens (l2 :: links2) ++ rest) := by
        simp [condTokens, linkTokens]
      rw [hL]
      have h0 : curTok (pre ++ ((⟨"OBSERVATION", .str l.name, 1⟩ : Token) ::
          ⟨"OPLOGIC", .str l.op, 1⟩ ::
          ⟨l.lit.tokTy, l.lit.toVal, 1⟩ :: andToken ::
          (condTokens (l2 :: links2) ++ rest))) pre.length =
          some ⟨"OBSERVATION", .str l.name, 1⟩ := by
        rw [curTok_append_zero]
        rfl
      have h1 : curTok (pre ++ ((⟨"OBSERVATION", .str l.name, 1⟩ : Token) ::
          ⟨"OPLOGIC", .str l.op, 1⟩ ::
          ⟨l.lit.tokTy, l.lit.toVal, 1⟩ :: andToken ::
          (condTokens (l2 :: links2) ++ rest))) (pre.length + 1) =
          some ⟨"OPLOGIC", .str l.op, 1⟩ := by
        rw [curTok_append]
        rfl
      have h2 : curTok (pre ++ ((⟨"OBSERVATION", .str l.name, 1⟩ : Token) ::
          ⟨"OPLOGIC", .str l.op, 1⟩ ::
          ⟨l.lit.tokTy, l.lit.toVal, 1⟩ :: andToken ::
          (condTokens (l2 :: links2) ++ rest))) (pre.length + 2) =
          some ⟨l.lit.tokTy, l.lit.toVal, 1⟩ := by
        rw [curTok_append]
        rfl
      have h3 : curTok (pre ++ ((⟨"OBSERVATION", .str l.name, 1⟩ : Token) ::
          ⟨"OPLOGIC", .str l.op, 1⟩ ::
          ⟨l.lit.tokTy, l.lit.toVal, 1⟩ :: andToken ::
          (condTokens (l2 :: links2) ++ rest))) (pre.length + 3) =
          some andToken := by
        rw [curTok_append]
        rfl
      have hstep := parseObservation_step _ _ _ _ _ _ h0 rfl h1 rfl h2 rfl
        (by cases l.lit <;> simp [LitVal.tokTy]) f
      rw [hstep]
      have hm : matchTok (pre ++ ((⟨"OBSERVATION", .str l.name, 1⟩ : Token) ::
          ⟨"OPLOGIC", .str l.op, 1⟩ ::
          ⟨l.lit.tokTy, l.lit.toVal, 1⟩ :: andToken ::
          (condTokens (l2 :: links2) ++ rest))) (pre.length + 3) "AND" =
          true := by
        simp only [matchTok, h3]
        rfl
      have e3 := consumeExp_ok h3 (by rfl : andToken.ty = "AND")
      rw [hm]
      have hrec := ih f l2
        (pre ++ [⟨"OBSERVATION", .str l.name, 1⟩,
          ⟨"OPLOGIC", .str l.op, 1⟩,
          ⟨l.lit.tokTy, l.lit.toVal, 1⟩, andToken]) rest
        (by simp at hf ⊢; omega) hr
      have hform : (pre ++ [(⟨"OBSERVATION", .str l.name, 1⟩ : Token),
          ⟨"OPLOGIC", .str l.op, 1⟩,
          ⟨l.lit.tokTy, l.lit.toVal, 1⟩, andToken]) ++
          (condTokens (l2 :: links2) ++ rest) =
          pre ++ ((⟨"OBSERVATION", .str l.name, 1⟩ : Token) ::
          ⟨"OPLOGIC", .str l.op, 1⟩ ::
          ⟨l.lit.tokTy, l.lit.toVal, 1⟩ :: andToken ::
          (condTokens (l2 :: links2) ++ rest)) := by
        simp
      have hlen : (pre ++ [(⟨"OBSERVATION", .str l.name, 1⟩ : Token),
          ⟨"OPLOGIC", .str l.op, 1⟩,
          ⟨l.lit.tokTy, l.lit.toVal, 1⟩, andToken]).length =
          pre.length + 4 := by
        simp
      rw [hform, hlen] at hrec
      simp only [e3, hrec]
      simp [curLine, h0, TokenVal.pyStr, chainOf, condTokens, linkTokens]
      omega

/-- C5: for every chained condition, parsing yields the right-growing
singly linked chain: the i-th link holds the i-th comparison and is
joined to link i+1 through its `next_obs` field, the last link's
`next_obs` is `none`, and no other grouping exists; concretely,
`temp > 25 && temp < 35` parses to
`Observation(temp, >, 25, next = Observation(temp, <, 35))`. -/
theorem claim_C5 :
    (∀ (l : CondLink) (links : List CondLink) (fuel : Nat)
      (rest : List Token),
      links.length + 1 ≤ fuel →
      (∀ t, rest.head? = some t → t.ty ≠ "AND") →
      parseObservation fuel (condTokens (l :: links) ++ rest) 0 =
        .ok (chainOf l links, (condTokens (l :: links)).length)) ∧
    parseObservation ((tokenize "temp > 25 && temp < 35").1.length + 1)
        (tokenize "temp > 25 && temp < 35").1 0 =
      .ok (.mk "temp" ">" ⟨.num 25, 1⟩
            (some (.mk "temp" "<" ⟨.num 35, 1⟩ none 1)) 1, 7) := by
  constructor
  · intro l links fuel rest hf hr
    have h := parseObservation_condTokens links fuel l [] rest hf hr
    simpa using h
  · rfl

/-- Witness for C5 at the two-link chain `x > 5 && ok == true`. -/
theorem claim_C5_witness :
    ([⟨"ok", "==", .bool true⟩] : List CondLink).length + 1 ≤ 3 ∧
    parseObservation 3
        (condTokens [⟨"x", ">", .num 5⟩, ⟨"ok", "==", .bool true⟩] ++ []) 0 =
      .ok (chainOf ⟨"x", ">", .num 5⟩ [⟨"ok", "==", .bool true⟩],
        (condTokens [⟨"x", ">", .num 5⟩, ⟨"ok", "==", .bool true⟩]).length) :=
  ⟨by decide,
   claim_C5.1 ⟨"x", ">", .num 5⟩ [⟨"ok", "==", .bool true⟩] 3 []
     (by decide) (fun t ht => by simp at ht)⟩

/-- Witness for C6 on a concrete successful parse. -/
theorem claim_C6_witness :
    parse (tokenize "dispositivo : s\nligar s.").1 =
      .ok ⟨[⟨"s", none, 1⟩], [.act (.simple "ligar" "s" 2)]⟩ ∧
    (1 ≤ (Program.mk [⟨"s", none, 1⟩]
        [.act (.simple "ligar" "s" 2)]).devices.length ∧
      1 ≤ (Program.mk [⟨"s", none, 1⟩]
        [.act (.simple "ligar" "s" 2)]).commands.length) :=
  ⟨rfl, claim_C6.1 (tokenize "dispositivo : s\nligar s.").1
    ⟨[⟨"s", none, 1⟩], [.act (.simple "ligar" "s" 2)]⟩ rfl⟩

end ObsAct

